import Mathlib

/-!
Shallow embedding of `src/backend/app.py` (Climatrail backend).

Modelling conventions:
* Python floats are modelled as `ℚ` (the claims only involve threshold
  comparisons, means of finite lists, sums and maxima, none of which depend
  on binary floating-point rounding).
* Python exceptions are modelled by the inductive `PyExn`; fallible code
  returns `Except PyExn _`.
* A Python lambda whose parameter follows a `*_` catch-all is keyword-only;
  calling it with positional arguments only raises `TypeError`.  The rule
  table `CONDITION_RULES` in the source does exactly that for the
  "Very Wet" (`lambda *_, p, **__: p > 10`) and "Very Uncomfortable"
  (`lambda *_, h: h > 80`) predicates, while `classify_conditions` invokes
  every predicate as `rule(temp, wind, precip, humidity)` — four positional
  arguments.  The embedded predicates therefore return the `TypeError`
  that the CPython call protocol raises at that call site.
* HTTP interaction is abstracted by response-shaped inductives
  (`ProviderResponse`, `GeoResponse`): transport failure, status code,
  JSON-decoding outcome and decoded body, which is all the code inspects.
-/

set_option autoImplicit false

namespace Climatrail

/-- Python exceptions that can arise in the request flow: transport errors
from `requests.get`, `HTTPError` from `raise_for_status`, JSON decoding
errors from `resp.json()`, `KeyError` from `weather["hourly"]`, and
`TypeError` from calling a keyword-only lambda positionally.  Each carries
the text that `str(e)` would produce (for `KeyError` the key, since
`str(KeyError(k))` is `repr(k)`). -/
inductive PyExn where
  | transport (detail : String)
  | httpStatus (detail : String)
  | jsonDecode (detail : String)
  | keyError (key : String)
  | typeError (detail : String)
  deriving DecidableEq, Repr

/-- Python `str(e)` for the exceptions above; `str(KeyError("hourly"))`
renders as `'hourly'` (repr of the key). -/
def strOfExn : PyExn → String
  | .transport d => d
  | .httpStatus d => d
  | .jsonDecode d => d
  | .keyError k => "'" ++ k ++ "'"
  | .typeError d => d

/-- The dict appended by `classify_conditions` for a matched rule:
`{"label": ..., "icon": ..., "risk": ..., "advice": ..., "color": ...}`. -/
structure ConditionMatch where
  label : String
  icon : String
  risk : String
  advice : String
  color : String
  deriving DecidableEq, Repr

/-- One entry of the `CONDITION_RULES` table: a
`(label, rule, icon, risk, advice, color)` tuple.  The predicate is the
Python lambda as observed at the call site
`rule(temp, wind, precip, humidity)` (four positional arguments), hence
`Except PyExn Bool`: a lambda with a keyword-only parameter raises
`TypeError` there. -/
structure ConditionRule where
  label : String
  pred : ℚ → ℚ → ℚ → ℚ → Except PyExn Bool
  icon : String
  risk : String
  advice : String
  color : String

/-- Predicate of the "Very Hot" rule: `lambda t, *_: t > 35`.  Binds the
first positional argument (mean temperature). -/
def veryHotPred (t _w _p _h : ℚ) : Except PyExn Bool := .ok (decide (t > 35))

/-- Predicate of the "Very Cold" rule: `lambda t, *_: t < 5`. -/
def veryColdPred (t _w _p _h : ℚ) : Except PyExn Bool := .ok (decide (t < 5))

/-- Predicate of the "Very Windy" rule: `lambda _, w, *__: w > 40`.  Binds
the second positional argument (max wind). -/
def veryWindyPred (_t w _p _h : ℚ) : Except PyExn Bool := .ok (decide (w > 40))

/-- Message of the `TypeError` raised when the "Very Wet" lambda is called
with only positional arguments. -/
def veryWetTypeErrorMsg : String :=
  "<lambda>() missing 1 required keyword-only argument: 'p'"

/-- Predicate of the "Very Wet" rule: `lambda *_, p, **__: p > 10`.  Here
`p` follows the `*_` catch-all, so it is keyword-only; the call
`rule(temp, wind, precip, humidity)` passes four positional arguments and
raises `TypeError` before the comparison is ever evaluated. -/
def veryWetPred (_t _w _p _h : ℚ) : Except PyExn Bool :=
  .error (.typeError veryWetTypeErrorMsg)

/-- Message of the `TypeError` raised when the "Very Uncomfortable" lambda
is called with only positional arguments. -/
def veryUncomfortableTypeErrorMsg : String :=
  "<lambda>() missing 1 required keyword-only argument: 'h'"

/-- Predicate of the "Very Uncomfortable" rule: `lambda *_, h: h > 80`.
Like `veryWetPred`, `h` is keyword-only and the positional call raises
`TypeError`. -/
def veryUncomfortablePred (_t _w _p _h : ℚ) : Except PyExn Bool :=
  .error (.typeError veryUncomfortableTypeErrorMsg)

/-- The global fixed rule table `CONDITION_RULES` of the source, in
source order. -/
def CONDITION_RULES : List ConditionRule :=
  [ { label := "Very Hot", pred := veryHotPred, icon := "☀️",
      risk := "⚠️ Very Hot", advice := "Pack extra water and sunscreen.",
      color := "red" },
    { label := "Very Cold", pred := veryColdPred, icon := "❄️",
      risk := "⚠️ Very Cold", advice := "Dress warmly and watch for ice.",
      color := "blue" },
    { label := "Very Windy", pred := veryWindyPred, icon := "💨",
      risk := "⚠️ Very Windy",
      advice := "Secure loose items and avoid open areas.",
      color := "gray" },
    { label := "Very Wet", pred := veryWetPred, icon := "🌧️",
      risk := "⚠️ Very Wet",
      advice := "Bring rain gear and waterproof shoes.",
      color := "darkblue" },
    { label := "Very Uncomfortable", pred := veryUncomfortablePred,
      icon := "😓", risk := "⚠️ Very Uncomfortable",
      advice := "Stay hydrated and take breaks.",
      color := "orange" } ]

/-- The dict literal that `classify_conditions` appends for a matched
rule. -/
def mkMatch (r : ConditionRule) : ConditionMatch :=
  { label := r.label, icon := r.icon, risk := r.risk, advice := r.advice,
    color := r.color }

/-- The loop body of `classify_conditions` over a suffix of the rule
table: evaluate each rule's predicate in order; the first raised exception
propagates (discarding the accumulated matches); otherwise the matched
rules' dicts are collected in table order. -/
def classifyAux (t w p h : ℚ) : List ConditionRule → Except PyExn (List ConditionMatch)
  | [] => .ok []
  | r :: rs =>
    match r.pred t w p h with
    | .error e => .error e
    | .ok b =>
      match classifyAux t w p h rs with
      | .error e => .error e
      | .ok rest => .ok (if b then mkMatch r :: rest else rest)

/-- Embedding of `classify_conditions(temp, wind, precip, humidity)`
(source lines 28–39): iterate `CONDITION_RULES`, call each predicate with
the four metrics positionally, append the display dict of every rule whose
predicate returns true. -/
def classify_conditions (temp wind precip humidity : ℚ) : Except PyExn (List ConditionMatch) :=
  classifyAux temp wind precip humidity CONDITION_RULES

/-- Summary sentence for the empty condition list. -/
def greatMsg : String := "Great day for outdoor activities!"

/-- Summary sentence when a hot/wet/uncomfortable condition is present. -/
def indoorsMsg : String := "This day looks uncomfortable for hiking. Best to plan indoors."

/-- Summary sentence for the windy branch. -/
def windyMsg : String := "Windy conditions. Caution advised for outdoor events."

/-- Summary sentence for the cold branch. -/
def coldMsg : String := "Dress warmly for outdoor activities."

/-- Defensive default summary sentence. -/
def defaultMsg : String := "Check conditions before heading out."

/-- Embedding of `get_summary(conditions)` (source lines 42–51): first
matching branch of the priority chain wins. -/
def get_summary (conditions : List ConditionMatch) : String :=
  if conditions.isEmpty then greatMsg
  else if conditions.any
      (fun c => ["Very Hot", "Very Wet", "Very Uncomfortable"].contains c.label) then
    indoorsMsg
  else if conditions.any (fun c => c.label == "Very Windy") then windyMsg
  else if conditions.any (fun c => c.label == "Very Cold") then coldMsg
  else defaultMsg

/-- Decoded JSON body of the reverse-geocoding provider: the code only
reads the optional `display_name` field. -/
structure GeoBody where
  display_name : Option String
  deriving DecidableEq, Repr

/-- Outcome of the geocoding HTTP call as observed by `get_location_name`:
either `requests.get` itself raises (network error, timeout, ...), or a
response arrives with its `ok` flag (`status < 400`) and a body that
either decodes as JSON or makes `resp.json()` raise. -/
inductive GeoResponse where
  | failure (detail : String)
  | http (ok : Bool) (body : Except String GeoBody)
  deriving Repr

/-- Python `f"{x:.2f}"` on a rational: round to the nearest hundredth and
render with exactly two decimal digits (sign, integer part, dot, two
digits). -/
def fmt2 (q : ℚ) : String :=
  let n : ℤ := round (q * 100)
  let sign := if n < 0 then "-" else ""
  let m := n.natAbs
  sign ++ toString (m / 100) ++ "." ++
    (if m % 100 < 10 then "0" else "") ++ toString (m % 100)

/-- The fallback string `f"{lat:.2f}, {lon:.2f}"` of `get_location_name`. -/
def coordFallback (lat lon : ℚ) : String := fmt2 lat ++ ", " ++ fmt2 lon

/-- Embedding of `get_location_name(lat, lon)` (source lines 17–25),
parameterised by the geocoding call's outcome: on `resp.ok`, decode the
JSON (a decoding exception is swallowed by the `except`) and return
`data.get("display_name", fallback)`; every other path returns the
fallback. -/
def get_location_name (lat lon : ℚ) (resp : GeoResponse) : String :=
  match resp with
  | .failure _ => coordFallback lat lon
  | .http ok body =>
    if ok then
      match body with
      | .error _ => coordFallback lat lon
      | .ok data => data.display_name.getD (coordFallback lat lon)
    else coordFallback lat lon

/-- The `"hourly"` object of the weather provider's JSON body: four
optional hourly series (a JSON key may be absent). -/
structure HourlyData where
  temperature_2m : Option (List ℚ)
  windspeed_10m : Option (List ℚ)
  precipitation : Option (List ℚ)
  relativehumidity_2m : Option (List ℚ)
  deriving DecidableEq, Repr

/-- Decoded top-level JSON body of the weather provider: the code only
reads the optional `"hourly"` key (`weather["hourly"]` raises `KeyError`
when it is absent). -/
structure WeatherBody where
  hourly : Option HourlyData
  deriving DecidableEq, Repr

/-- Outcome of the weather HTTP call as the endpoint's `try` block
observes it: `requests.get` raises a transport error, or a response
arrives with a status code, the `str(HTTPError)` text that
`raise_for_status` would interpolate for that response, and a body that
either decodes as JSON or makes `resp.json()` raise with the given
detail. -/
inductive ProviderResponse where
  | transportFailure (detail : String)
  | http (status : ℕ) (statusDetail : String) (body : Except String WeatherBody)
  deriving Repr

/-- Python `sum(xs)` on a list of floats (left fold from 0). -/
def pySum (xs : List ℚ) : ℚ := xs.foldl (· + ·) 0

/-- Python `max(xs)` on a nonempty list of floats. -/
def pyMax (x : ℚ) (xs : List ℚ) : ℚ := xs.foldl max x

/-- Python truthiness of an optional list value (`h.get(k)`): truthy iff
the key is present and the list nonempty. -/
def truthyList (o : Option (List ℚ)) : Bool :=
  match o with
  | some (_ :: _) => true
  | _ => false

/-- Body of the endpoint's `try` block after the GET (source lines 77–87):
`raise_for_status` (an `HTTPError` for `400 ≤ status < 600`), then
`resp.json()`, then `weather["hourly"]`, then the four reductions:
mean temperature, max wind, summed precipitation, mean humidity, each
falling back to 0 on an absent or empty series (`precipitation` via
`h.get("precipitation", [0])`).  Any exception is the `except` branch's
`e`. -/
def fetchMetrics (resp : ProviderResponse) : Except PyExn (ℚ × ℚ × ℚ × ℚ) :=
  match resp with
  | .transportFailure d => .error (.transport d)
  | .http status statusDetail body =>
    if 400 ≤ status ∧ status < 600 then .error (.httpStatus statusDetail)
    else
      match body with
      | .error d => .error (.jsonDecode d)
      | .ok w =>
        match w.hourly with
        | none => .error (.keyError "hourly")
        | some h =>
          let temp :=
            match h.temperature_2m with
            | some (x :: xs) => pySum (x :: xs) / ((x :: xs).length : ℚ)
            | _ => 0
          let wind :=
            match h.windspeed_10m with
            | some (x :: xs) => pyMax x xs
            | _ => 0
          let precip := pySum (h.precipitation.getD [0])
          let humidity :=
            match h.relativehumidity_2m with
            | some (x :: xs) => pySum (x :: xs) / ((x :: xs).length : ℚ)
            | _ => 0
          .ok (temp, wind, precip, humidity)

/-- The 200 body assembled at the end of the endpoint. -/
structure WeatherResponse where
  location_name : String
  date : String
  summary : String
  conditions : List ConditionMatch
  deriving DecidableEq, Repr

/-- Result of the request handler: an error response with status and
message, a 200 response, or an exception that escapes the handler (Flask
turns it into a 500, never a 200). -/
inductive HandlerResult where
  | errResp (status : ℕ) (msg : String)
  | okResp (resp : WeatherResponse)
  | crash (e : PyExn)
  deriving DecidableEq, Repr

/-- The rest of the `weather` endpoint once validation and date parsing
have passed (source lines 77–97): fetch and reduce the weather data
(failures become `502` with `"Weather data unavailable: " + str(e)`),
then classify — outside the `try`, so an exception there escapes — then
resolve the location name and assemble the 200 body. -/
def weatherAfterValidation (lat lon : ℚ) (dateStr : String)
    (provider : ProviderResponse) (geo : GeoResponse) : HandlerResult :=
  match fetchMetrics provider with
  | .error e => .errResp 502 ("Weather data unavailable: " ++ strOfExn e)
  | .ok (temp, wind, precip, humidity) =>
    match classify_conditions temp wind precip humidity with
    | .error e => .crash e
    | .ok conditions =>
      .okResp
        { location_name := get_location_name lat lon geo,
          date := dateStr,
          summary := get_summary conditions,
          conditions := conditions }

/-- Python truthiness of the optional number `data.get("lat")` /
`data.get("lon")`: falsy when absent or zero. -/
def truthyNum (o : Option ℚ) : Bool :=
  match o with
  | none => false
  | some q => q != 0

/-- Python truthiness of the optional string `data.get("date")`: falsy
when absent or empty. -/
def truthyStr (o : Option String) : Bool :=
  match o with
  | none => false
  | some s => s != ""

/-- The validation block of the endpoint (source lines 57–61):
`if not (lat and lon and date): return 400 "Missing lat, lon, or date"`;
`none` means the request passes this check. -/
def validateFields (lat lon : Option ℚ) (date : Option String) :
    Option (ℕ × String) :=
  if !(truthyNum lat && truthyNum lon && truthyStr date) then
    some (400, "Missing lat, lon, or date")
  else none

/-- Python `datetime.date`: a calendar date compared lexicographically by
(year, month, day). -/
structure PyDate where
  year : ℕ
  month : ℕ
  day : ℕ
  deriving DecidableEq, Repr

/-- Python `<` on `datetime.date`: lexicographic on (year, month, day). -/
def dateBefore (a b : PyDate) : Prop :=
  a.year < b.year ∨
    (a.year = b.year ∧
      (a.month < b.month ∨ (a.month = b.month ∧ a.day < b.day)))

instance (a b : PyDate) : Decidable (dateBefore a b) := by
  unfold dateBefore; infer_instance

/-- URL of the historical-archive provider. -/
def archiveUrl : String := "https://archive-api.open-meteo.com/v1/archive"

/-- URL of the forecast provider. -/
def forecastUrl : String := "https://api.open-meteo.com/v1/forecast"

/-- Endpoint selection of the source (lines 66–69):
`is_past = dt.date() < today`, archive when past, forecast otherwise. -/
def selectBaseUrl (dt today : PyDate) : String :=
  if dateBefore dt today then archiveUrl else forecastUrl

/-- Shared lemma: evaluating the rule table raises on every input.  The
first three predicates answer normally, but the fourth ("Very Wet") raises
`TypeError` because its `p` is keyword-only and the call passes only
positional arguments, so the loop's accumulated matches are discarded and
the exception propagates out of `classify_conditions`. -/
theorem classify_conditions_raises (t w p h : ℚ) :
    classify_conditions t w p h
      = Except.error (PyExn.typeError veryWetTypeErrorMsg) := rfl

/-- Shared lemma: `get_summary` on the empty list. -/
theorem get_summary_nil : get_summary [] = greatMsg := rfl

/-- C1: the claim states that `classify_conditions` succeeds with no
failure mode on every `DailyMetrics` tuple and returns the matches of the
strict-threshold rules in rule order.  The code instead raises `TypeError`
on every input: the "Very Wet" predicate `lambda *_, p, **__: p > 10`
makes `p` keyword-only, and the call site passes the four metrics
positionally, so no input ever yields a result — even one that matches no
rule, and even one (40, 45, 20, 90) that should match four rules. -/
theorem c1_classify_conditions_always_raises :
    (∀ t w p h : ℚ, classify_conditions t w p h
      = Except.error (PyExn.typeError veryWetTypeErrorMsg)) ∧
    classify_conditions 0 0 0 0
      = Except.error (PyExn.typeError veryWetTypeErrorMsg) ∧
    classify_conditions 40 45 20 90
      = Except.error (PyExn.typeError veryWetTypeErrorMsg) :=
  ⟨fun t w p h => classify_conditions_raises t w p h,
   classify_conditions_raises 0 0 0 0,
   classify_conditions_raises 40 45 20 90⟩

/-- C2: the claim states that with all four hourly series absent or empty
the derived metrics are (0, 0, 0, 0), the classifier matches nothing, and
the summary is "Great day for outdoor activities!".  The metric
derivation does yield (0, 0, 0, 0), but the classifier then raises
`TypeError` (see C1), so the endpoint crashes instead of producing the
200 "Great day" response. -/
theorem c2_empty_series_crashes :
    fetchMetrics (.http 200 "" (.ok ⟨some ⟨some [], some [], some [], some []⟩⟩))
      = Except.ok (0, 0, 0, 0) ∧
    fetchMetrics (.http 200 "" (.ok ⟨some ⟨none, none, none, none⟩⟩))
      = Except.ok (0, 0, 0, 0) ∧
    weatherAfterValidation 35 139 "2099-01-01"
        (.http 200 "" (.ok ⟨some ⟨none, none, none, none⟩⟩)) (.failure "x")
      = HandlerResult.crash (PyExn.typeError veryWetTypeErrorMsg) ∧
    get_summary [] = greatMsg := by
  refine ⟨by norm_num [fetchMetrics, pySum], by norm_num [fetchMetrics, pySum], ?_, get_summary_nil⟩
  norm_num [weatherAfterValidation, fetchMetrics, pySum, classify_conditions_raises]

/-- C9: the classifier and the synthesizer are deterministic — equal
metric tuples give equal `classify_conditions` results and equal condition
lists give equal `get_summary` results. -/
theorem c9_classifier_synthesizer_deterministic
    (t₁ w₁ p₁ h₁ t₂ w₂ p₂ h₂ : ℚ) (l₁ l₂ : List ConditionMatch)
    (hm : (t₁, w₁, p₁, h₁) = (t₂, w₂, p₂, h₂)) (hl : l₁ = l₂) :
    classify_conditions t₁ w₁ p₁ h₁ = classify_conditions t₂ w₂ p₂ h₂ ∧
    get_summary l₁ = get_summary l₂ := by
  simp only [Prod.mk.injEq] at hm
  obtain ⟨h1, h2, h3, h4⟩ := hm
  subst h1; subst h2; subst h3; subst h4; subst hl
  exact ⟨rfl, rfl⟩

/-- Witness for C9 at metrics (1, 2, 3, 4) and the empty condition
list. -/
theorem c9_witness :
    classify_conditions 1 2 3 4 = classify_conditions 1 2 3 4 ∧
    get_summary [] = get_summary [] :=
  c9_classifier_synthesizer_deterministic 1 2 3 4 1 2 3 4 [] [] rfl rfl

/-- C7: a requested date strictly before the current UTC date selects the
historical-archive endpoint; a date equal to today or later selects the
forecast endpoint (a date equal to today is not past). -/
theorem c7_endpoint_selected_by_recency (dt today : PyDate) :
    (dateBefore dt today → selectBaseUrl dt today = archiveUrl) ∧
    (¬ dateBefore dt today → selectBaseUrl dt today = forecastUrl) ∧
    selectBaseUrl today today = forecastUrl := by
  refine ⟨fun hlt => if_pos hlt, fun hge => if_neg hge, if_neg ?_⟩
  rcases today with ⟨y, m, d⟩
  simp [dateBefore]

/-- Witness for C7: relative to the UTC date 2025-10-12, the date
2000-01-01 routes to the archive endpoint, 2099-01-01 routes to the
forecast endpoint, and 2025-10-12 itself routes to the forecast
endpoint. -/
theorem c7_witness :
    selectBaseUrl ⟨2000, 1, 1⟩ ⟨2025, 10, 12⟩ = archiveUrl ∧
    selectBaseUrl ⟨2099, 1, 1⟩ ⟨2025, 10, 12⟩ = forecastUrl ∧
    selectBaseUrl ⟨2025, 10, 12⟩ ⟨2025, 10, 12⟩ = forecastUrl :=
  ⟨(c7_endpoint_selected_by_recency ⟨2000, 1, 1⟩ ⟨2025, 10, 12⟩).1 (by decide),
   (c7_endpoint_selected_by_recency ⟨2099, 1, 1⟩ ⟨2025, 10, 12⟩).2.1 (by decide),
   (c7_endpoint_selected_by_recency ⟨2025, 10, 12⟩ ⟨2025, 10, 12⟩).2.2⟩

/-- C5: `get_location_name` never fails outward: on a raised transport
error, a non-ok response, a malformed JSON body, or a body without the
`display_name` field, it returns the fallback `f"{lat:.2f}, {lon:.2f}"`;
on an ok response whose body carries `display_name`, it returns that
field. -/
theorem c5_location_name_total (lat lon : ℚ) (resp : GeoResponse) :
    (∀ d, resp = .failure d →
      get_location_name lat lon resp = fmt2 lat ++ ", " ++ fmt2 lon) ∧
    (∀ body, resp = .http false body →
      get_location_name lat lon resp = fmt2 lat ++ ", " ++ fmt2 lon) ∧
    (∀ d, resp = .http true (.error d) →
      get_location_name lat lon resp = fmt2 lat ++ ", " ++ fmt2 lon) ∧
    (resp = .http true (.ok ⟨none⟩) →
      get_location_name lat lon resp = fmt2 lat ++ ", " ++ fmt2 lon) ∧
    (∀ s, resp = .http true (.ok ⟨some s⟩) →
      get_location_name lat lon resp = s) := by
  refine ⟨fun d hd => ?_, fun body hb => ?_, fun d hd => ?_, fun hn => ?_,
    fun s hs => ?_⟩ <;> subst_vars <;> rfl

/-- Witness for C5 at (lat, lon) = (1, 2): a geocoding timeout falls back
to the coordinate string, and a successful lookup returns the
`display_name`. -/
theorem c5_witness :
    get_location_name 1 2 (.failure "timed out") = fmt2 1 ++ ", " ++ fmt2 2 ∧
    get_location_name 1 2 (.http true (.ok ⟨some "Berlin"⟩)) = "Berlin" :=
  ⟨(c5_location_name_total 1 2 (.failure "timed out")).1 "timed out" rfl,
   (c5_location_name_total 1 2
      (.http true (.ok ⟨some "Berlin"⟩))).2.2.2.2 "Berlin" rfl⟩

/-- C4: once validation passes, a provider transport failure, an HTTP
error status (the `400 ≤ status < 600` range that `raise_for_status`
rejects), or a malformed JSON body each abort the request with status 502
and the message `"Weather data unavailable: " + str(e)` carrying the
underlying failure description, and no such request produces a 200
response. -/
theorem c4_provider_failure_is_502 (lat lon : ℚ) (ds : String)
    (geo : GeoResponse) :
    (∀ d, weatherAfterValidation lat lon ds (.transportFailure d) geo
      = .errResp 502 ("Weather data unavailable: " ++ d)) ∧
    (∀ status sd body, 400 ≤ status → status < 600 →
      weatherAfterValidation lat lon ds (.http status sd body) geo
        = .errResp 502 ("Weather data unavailable: " ++ sd)) ∧
    (∀ status sd d, ¬ (400 ≤ status ∧ status < 600) →
      weatherAfterValidation lat lon ds (.http status sd (.error d)) geo
        = .errResp 502 ("Weather data unavailable: " ++ d)) ∧
    (∀ pr e, fetchMetrics pr = .error e →
      ∀ r, weatherAfterValidation lat lon ds pr geo ≠ .okResp r) := by
  refine ⟨fun d => rfl, fun status sd body h4 h6 => ?_,
    fun status sd d hne => ?_, fun pr e he r => ?_⟩
  · simp [weatherAfterValidation, fetchMetrics, if_pos (And.intro h4 h6), strOfExn]
  · simp [weatherAfterValidation, fetchMetrics, if_neg hne, strOfExn]
  · simp [weatherAfterValidation, he]

/-- Witness for C4: a 500 status from the provider and a malformed JSON
body each yield the 502 error response. -/
theorem c4_witness :
    weatherAfterValidation 1 2 "2024-01-01"
        (.http 500 "500 Server Error" (.ok ⟨none⟩)) (.failure "x")
      = .errResp 502 "Weather data unavailable: 500 Server Error" ∧
    weatherAfterValidation 1 2 "2024-01-01"
        (.http 200 "" (.error "Expecting value")) (.failure "x")
      = .errResp 502 "Weather data unavailable: Expecting value" :=
  ⟨(c4_provider_failure_is_502 1 2 "2024-01-01" (.failure "x")).2.1
      500 "500 Server Error" (.ok ⟨none⟩) (by norm_num) (by norm_num),
   (c4_provider_failure_is_502 1 2 "2024-01-01" (.failure "x")).2.2.1
      200 "" "Expecting value" (by norm_num)⟩

/-- C10: a successful provider response whose valid JSON body lacks the
top-level `"hourly"` object raises `KeyError` inside the `try` block, so
the request is answered by the same 502 handler with detail `'hourly'`,
never by a 200 built from zero-valued metrics. -/
theorem c10_missing_hourly_is_502 (lat lon : ℚ) (ds : String)
    (geo : GeoResponse) (status : ℕ) (sd : String) (hok : status < 400) :
    weatherAfterValidation lat lon ds (.http status sd (.ok ⟨none⟩)) geo
      = .errResp 502 "Weather data unavailable: 'hourly'" ∧
    ∀ r, weatherAfterValidation lat lon ds (.http status sd (.ok ⟨none⟩)) geo
      ≠ .okResp r := by
  have hne : ¬ (400 ≤ status ∧ status < 600) := fun hc => absurd hok (by omega)
  constructor
  · simp [weatherAfterValidation, fetchMetrics, if_neg hne, strOfExn]
  · intro r
    simp [weatherAfterValidation, fetchMetrics, if_neg hne]

/-- Witness for C10 at a 200-status response with body lacking
`"hourly"`. -/
theorem c10_witness :
    weatherAfterValidation 1 2 "2024-01-01" (.http 200 "ok" (.ok ⟨none⟩))
        (.failure "x")
      = .errResp 502 "Weather data unavailable: 'hourly'" :=
  (c10_missing_hourly_is_502 1 2 "2024-01-01" (.failure "x") 200 "ok"
    (by norm_num)).1

/-- C3: the validation block returns 400 "Missing lat, lon, or date"
exactly when one of `lat`, `lon`, `date` is absent or falsy — for the
numbers that includes the value 0, for the date the empty string — and no
other request reaches this error. -/
theorem c3_validation_iff (lat lon : Option ℚ) (date : Option String) :
    validateFields lat lon date = some (400, "Missing lat, lon, or date") ↔
      lat = none ∨ lat = some 0 ∨ lon = none ∨ lon = some 0 ∨
        date = none ∨ date = some "" := by
  rcases lat with _ | ql <;> rcases lon with _ | qo <;> rcases date with _ | s <;>
    (simp [validateFields, truthyNum, truthyStr]; try tauto)

/-- C8: whenever `classify_conditions` produces an output, that output
never contains both a "Very Hot" and a "Very Cold" match.  On this code
the first part holds vacuously, because the classifier never produces an
output (see C1); the second conjunct proves the underlying fact at the
rule level: the "Very Hot" and "Very Cold" predicates cannot both answer
true, since the mean temperature cannot be both > 35 and < 5. -/
theorem c8_hot_cold_never_co_occur (t w p h : ℚ) (l : List ConditionMatch) :
    (classify_conditions t w p h = Except.ok l →
      ¬ ((∃ c ∈ l, c.label = "Very Hot") ∧ (∃ c ∈ l, c.label = "Very Cold"))) ∧
    ¬ (veryHotPred t w p h = .ok true ∧ veryColdPred t w p h = .ok true) := by
  constructor
  · intro hc
    rw [classify_conditions_raises] at hc
    exact absurd hc (by simp)
  · rintro ⟨h1, h2⟩
    simp only [veryHotPred, veryColdPred, Except.ok.injEq, decide_eq_true_eq] at h1 h2
    linarith

/-- C6: `get_summary` selects exactly one sentence by first-matching
priority: the empty sequence yields the "Great day" sentence; any of
Very Hot / Very Wet / Very Uncomfortable yields the indoors sentence;
else Very Windy yields the windy sentence; else Very Cold the
dress-warmly sentence; else the defensive default — which is unreachable
for any sequence `classify_conditions` can produce (vacuously so, since
the classifier always raises, see C1). -/
theorem c6_summary_first_matching_priority (conds : List ConditionMatch) :
    (conds = [] → get_summary conds = greatMsg) ∧
    ((∃ c ∈ conds, c.label = "Very Hot" ∨ c.label = "Very Wet" ∨
        c.label = "Very Uncomfortable") → get_summary conds = indoorsMsg) ∧
    ((¬ ∃ c ∈ conds, c.label = "Very Hot" ∨ c.label = "Very Wet" ∨
        c.label = "Very Uncomfortable") →
      (∃ c ∈ conds, c.label = "Very Windy") → get_summary conds = windyMsg) ∧
    ((¬ ∃ c ∈ conds, c.label = "Very Hot" ∨ c.label = "Very Wet" ∨
        c.label = "Very Uncomfortable") →
      (¬ ∃ c ∈ conds, c.label = "Very Windy") →
      (∃ c ∈ conds, c.label = "Very Cold") → get_summary conds = coldMsg) ∧
    (conds ≠ [] →
      (¬ ∃ c ∈ conds, c.label = "Very Hot" ∨ c.label = "Very Wet" ∨
        c.label = "Very Uncomfortable") →
      (¬ ∃ c ∈ conds, c.label = "Very Windy") →
      (¬ ∃ c ∈ conds, c.label = "Very Cold") →
      get_summary conds = defaultMsg) ∧
    (∀ t w p h : ℚ, classify_conditions t w p h = Except.ok conds →
      get_summary conds ≠ defaultMsg) := by
  have hmain : (conds.any
      (fun c => ["Very Hot", "Very Wet", "Very Uncomfortable"].contains c.label) = true) ↔
      ∃ c ∈ conds, c.label = "Very Hot" ∨ c.label = "Very Wet" ∨
        c.label = "Very Uncomfortable" := by
    simp [List.any_eq_true]
  have hwindy : (conds.any (fun c => c.label == "Very Windy") = true) ↔
      ∃ c ∈ conds, c.label = "Very Windy" := by
    simp [List.any_eq_true]
  have hcold : (conds.any (fun c => c.label == "Very Cold") = true) ↔
      ∃ c ∈ conds, c.label = "Very Cold" := by
    simp [List.any_eq_true]
  refine ⟨fun hnil => by subst hnil; rfl, fun hex => ?_, fun hno hex => ?_,
    fun hno hnw hex => ?_, fun hne hno hnw hnc => ?_, fun t w p h hc => ?_⟩
  · have hne : conds ≠ [] := by rintro rfl; simp at hex
    rw [get_summary, if_neg (by simp [hne]), if_pos (hmain.mpr hex)]
  · have hne : conds ≠ [] := by rintro rfl; simp at hex
    rw [get_summary, if_neg (by simp [hne]),
      if_neg (fun hb => hno (hmain.mp hb)), if_pos (hwindy.mpr hex)]
  · have hne : conds ≠ [] := by rintro rfl; simp at hex
    rw [get_summary, if_neg (by simp [hne]),
      if_neg (fun hb => hno (hmain.mp hb)),
      if_neg (fun hb => hnw (hwindy.mp hb)), if_pos (hcold.mpr hex)]
  · rw [get_summary, if_neg (by simp [hne]),
      if_neg (fun hb => hno (hmain.mp hb)),
      if_neg (fun hb => hnw (hwindy.mp hb)),
      if_neg (fun hb => hnc (hcold.mp hb))]
  · rw [classify_conditions_raises] at hc
    exact absurd hc (by simp)


/-- Witness for C6: the empty list yields the "Great day" sentence, a
Very Hot match yields the indoors sentence, a lone Very Windy match the
windy sentence, and a lone Very Cold match the dress-warmly sentence. -/
theorem c6_witness :
    get_summary [] = greatMsg ∧
    get_summary [⟨"Very Hot", "i", "r", "a", "c"⟩] = indoorsMsg ∧
    get_summary [⟨"Very Windy", "i", "r", "a", "c"⟩] = windyMsg ∧
    get_summary [⟨"Very Cold", "i", "r", "a", "c"⟩] = coldMsg :=
  ⟨(c6_summary_first_matching_priority []).1 rfl,
   (c6_summary_first_matching_priority [⟨"Very Hot", "i", "r", "a", "c"⟩]).2.1
      ⟨⟨"Very Hot", "i", "r", "a", "c"⟩, by simp, Or.inl rfl⟩,
   (c6_summary_first_matching_priority
      [⟨"Very Windy", "i", "r", "a", "c"⟩]).2.2.1 (by simp)
      ⟨⟨"Very Windy", "i", "r", "a", "c"⟩, by simp, rfl⟩,
   (c6_summary_first_matching_priority
      [⟨"Very Cold", "i", "r", "a", "c"⟩]).2.2.2.1 (by simp) (by simp)
      ⟨⟨"Very Cold", "i", "r", "a", "c"⟩, by simp, rfl⟩⟩

/-- Witness for C8 at temperature 40: the hot and cold predicates do not
both answer true. -/
theorem c8_witness :
    ¬ (veryHotPred 40 0 0 0 = .ok true ∧ veryColdPred 40 0 0 0 = .ok true) :=
  (c8_hot_cold_never_co_occur 40 0 0 0 []).2

end Climatrail
